import Mathlib

/-!
Verification development for the slow-trader core: a shallow embedding of
the risk manager, order manager, demo exchange, RSI indicator and strategy
evaluators, with theorems settling the stated behavioural properties.

Modelling conventions:
* Python floats are modelled as exact rationals (`ℚ`); IEEE NaN values are
  modelled as `none` in an `Option ℚ` where a computation can produce NaN.
* `datetime.now()` / `date.today()` are modelled as explicit `now : ℚ`
  (minutes) and `today : ℤ` (calendar-day number) parameters.
* Python dicts keyed by strings are association lists with
  update-in-place-or-append semantics, preserving insertion order
  (matching CPython dict iteration order).
* Random `uuid4` order ids are modelled by a deterministic counter; no
  verified property depends on id values.
-/

namespace SlowTrader

/-- Truthiness of an optional float, as Python `if x:` sees it:
`None` and `0.0` are falsy. -/
def optTruthy (x : Option ℚ) : Bool :=
  match x with
  | none => false
  | some v => decide (v ≠ 0)

/-- Python `str.lower()` (ASCII case folding suffices for the side strings
used by the program; expressed over the character data so it is
definitionally computable). -/
def strLower (s : String) : String := String.mk (s.data.map Char.toLower)

/-- Render an optional rational; stands in for Python float formatting in
reason strings (`none` prints as IEEE `nan` does). -/
def optToString (x : Option ℚ) : String :=
  match x with
  | none => "nan"
  | some v => toString v

/-! ## exchanges/base.py: order/position data model -/

inductive OrderType where
  | market
  | limit
  | stop_loss
  | stop_limit
  | take_profit
deriving DecidableEq, Repr

inductive OrderSide where
  | buy
  | sell
deriving DecidableEq, Repr

/-- `OrderSide.value` in the source (the enum's string value). -/
def OrderSide.value : OrderSide → String
  | .buy => "buy"
  | .sell => "sell"

inductive OrderStatus where
  | pending
  | open'
  | filled
  | partially_filled
  | cancelled
  | rejected
deriving DecidableEq, Repr

structure Order where
  id : String
  symbol : String
  side : OrderSide
  order_type : OrderType
  quantity : ℚ
  price : Option ℚ := none
  stop_price : Option ℚ := none
  status : OrderStatus := .pending
  filled_quantity : ℚ := 0
  filled_price : ℚ := 0
  /-- models `extra["fee"]` -/
  fee : ℚ := 0
  /-- models `extra["reason"]` -/
  reject_reason : Option String := none
deriving DecidableEq, Repr

structure Position where
  symbol : String
  side : OrderSide
  quantity : ℚ
  entry_price : ℚ
  current_price : ℚ := 0
  unrealized_pnl : ℚ := 0
  realized_pnl : ℚ := 0
deriving DecidableEq, Repr

structure Balance where
  currency : String
  total : ℚ
  available : ℚ
  locked : ℚ := 0
deriving DecidableEq, Repr

/-! ## strategies/base.py (not present in the source tree)

Modelled from the spec: the `TradeSignal` value type
(`{signal: Buy|Sell|Hold|CloseLong|CloseShort, symbol, strategy-id,
strength:[0,1], reference-price, stop-loss?, take-profit?, reason,
indicator-snapshot}`), `is_actionable` (true for Buy/Sell/CloseLong/
CloseShort, false for Hold), and the evaluator guard `validate_data`
(each evaluator wraps a minimum-lookback requirement and must fall back
to Hold when history is shorter than it). -/

inductive Signal where
  | buy
  | sell
  | hold
  | close_long
  | close_short
deriving DecidableEq, Repr

/-- Modelled from the spec: the `TradeSignal` immutable value type of
`strategies/base.py` (file absent from the source tree); price series are
modelled by their `close` column, so the indicator snapshot is a list of
named optional scalars. -/
structure TradeSignal where
  signal : Signal
  symbol : String
  strategy : String
  strength : ℚ := 0
  price : Option ℚ := none
  stop_loss : Option ℚ := none
  take_profit : Option ℚ := none
  reason : String := ""
  indicators : List (String × Option ℚ) := []
deriving DecidableEq, Repr

/-- Modelled from the spec: `TradeSignal.is_actionable` — "true for
Buy/Sell/CloseLong/CloseShort, false for Hold". -/
def TradeSignal.is_actionable (s : TradeSignal) : Bool :=
  match s.signal with
  | .hold => false
  | _ => true

/-- Modelled from the spec: `Strategy.validate_data` — an evaluator has a
minimum-lookback requirement (`_calculate_min_periods`) and treats shorter
history as insufficient. -/
def validate_data (min_periods : ℕ) (closes : List ℚ) : Bool :=
  decide (min_periods ≤ closes.length)

/-! ## utils/helpers.py -/

namespace Helpers

/-- `round_quantity` of helpers.py: `Decimal.quantize(…, ROUND_DOWN)`,
i.e. truncation toward zero at `precision` decimal places. -/
def round_quantity (quantity : ℚ) (precision : ℕ) : ℚ :=
  if 0 ≤ quantity then (⌊quantity * 10 ^ precision⌋ : ℚ) / 10 ^ precision
  else -((⌊-quantity * 10 ^ precision⌋ : ℚ) / 10 ^ precision)

/-- `calculate_position_size` of helpers.py: zero when a price is
non-positive or the risk per share vanishes, else the risk-based size
capped at the maximum position size. -/
def calculate_position_size (portfolio_value risk_per_trade entry_price
    stop_loss_price max_position_pct : ℚ) : ℚ :=
  if entry_price ≤ 0 ∨ stop_loss_price ≤ 0 then 0
  else if |entry_price - stop_loss_price| = 0 then 0
  else
    min (portfolio_value * risk_per_trade / |entry_price - stop_loss_price|)
      (portfolio_value * max_position_pct / entry_price)

end Helpers

/-! ## risk.py -/

structure RiskLimits where
  max_position_size : ℚ := 1/10
  max_daily_loss : ℚ := 1/20
  max_drawdown : ℚ := 3/20
  stop_loss_pct : ℚ := 1/50
  take_profit_pct : ℚ := 1/20
  max_open_positions : ℕ := 5
  min_trade_interval_minutes : ℚ := 30
  max_trades_per_day : ℕ := 10
deriving DecidableEq, Repr

structure TradeRecord where
  symbol : String
  side : String
  quantity : ℚ
  entry_price : ℚ
  exit_price : Option ℚ := none
  pnl : ℚ := 0
  timestamp : ℚ := 0
deriving DecidableEq, Repr

/-- The mutable tracking state of `RiskManager` (its `__init__` defaults). -/
structure RiskState where
  daily_pnl : ℚ := 0
  daily_trades : ℕ := 0
  last_trade_time : Option ℚ := none
  current_date : ℤ := 0
  peak_portfolio_value : ℚ := 0
  trade_history : List TradeRecord := []
deriving DecidableEq, Repr

namespace RiskManager

/-- `RiskManager.reset_daily`, with `date.today()` passed explicitly. -/
def reset_daily (today : ℤ) (s : RiskState) : RiskState :=
  if today ≠ s.current_date then
    { s with daily_pnl := 0, daily_trades := 0, current_date := today }
  else s

/-- `RiskManager.update_portfolio_peak`. -/
def update_portfolio_peak (current_value : ℚ) (s : RiskState) : RiskState :=
  if s.peak_portfolio_value < current_value then
    { s with peak_portfolio_value := current_value }
  else s

/-- `RiskManager.check_drawdown`; returns the (possibly seeded) state and
the within-limits flag. -/
def check_drawdown (L : RiskLimits) (current_value : ℚ) (s : RiskState) :
    RiskState × Bool :=
  if s.peak_portfolio_value ≤ 0 then
    ({ s with peak_portfolio_value := current_value }, true)
  else
    let drawdown := (s.peak_portfolio_value - current_value) / s.peak_portfolio_value
    if L.max_drawdown < drawdown then (s, false) else (s, true)

/-- `RiskManager.check_daily_loss`. -/
def check_daily_loss (L : RiskLimits) (s : RiskState) : Bool :=
  if s.daily_pnl < -(L.max_daily_loss * s.peak_portfolio_value) then false else true

/-- `RiskManager.check_trade_frequency`, with `datetime.now()` passed as
`now` (minutes). -/
def check_trade_frequency (L : RiskLimits) (now : ℚ) (s : RiskState) : Bool :=
  match s.last_trade_time with
  | none => true
  | some t => if now - t < L.min_trade_interval_minutes then false else true

/-- `RiskManager.check_daily_trade_count`. -/
def check_daily_trade_count (L : RiskLimits) (s : RiskState) : Bool :=
  if L.max_trades_per_day ≤ s.daily_trades then false else true

/-- `RiskManager.check_position_count`. -/
def check_position_count (L : RiskLimits) (current_positions : ℕ) : Bool :=
  if L.max_open_positions ≤ current_positions then false else true

/-- The state `can_trade` evaluates its gates on: daily counters reset on a
day rollover, high-water mark raised, then `check_drawdown` (which also
seeds the peak when it is non-positive). -/
def post_gate_state (L : RiskLimits) (today : ℤ) (portfolio_value : ℚ)
    (s : RiskState) : RiskState × Bool :=
  check_drawdown L portfolio_value
    (update_portfolio_peak portfolio_value (reset_daily today s))

/-- `RiskManager.can_trade`: resets daily counters, raises the peak, then
evaluates the gates in order, returning the first failing reason. -/
def can_trade (L : RiskLimits) (today : ℤ) (now : ℚ) (portfolio_value : ℚ)
    (current_positions : ℕ) (s : RiskState) : RiskState × Bool × String :=
  let dd := post_gate_state L today portfolio_value s
  if ¬ dd.2 then (dd.1, false, "Drawdown limit exceeded")
  else if ¬ check_daily_loss L dd.1 then (dd.1, false, "Daily loss limit exceeded")
  else if ¬ check_trade_frequency L now dd.1 then (dd.1, false, "Trade frequency limit")
  else if ¬ check_daily_trade_count L dd.1 then (dd.1, false, "Daily trade count exceeded")
  else if ¬ check_position_count L current_positions then (dd.1, false, "Max positions reached")
  else (dd.1, true, "OK")

/-- The stop-loss price `calculate_position_size` derives when the signal
carries none (Python truthiness: `stop_loss=0.0` also falls back). -/
def effective_stop (L : RiskLimits) (sig : TradeSignal) (current_price : ℚ) : ℚ :=
  let derived :=
    if sig.signal = Signal.buy then current_price * (1 - L.stop_loss_pct)
    else current_price * (1 + L.stop_loss_pct)
  match sig.stop_loss with
  | some sl => if sl = 0 then derived else sl
  | none => derived

/-- `RiskManager.calculate_position_size`. -/
def calculate_position_size (L : RiskLimits) (sig : TradeSignal)
    (portfolio_value current_price : ℚ) : ℚ :=
  let stop_loss := effective_stop L sig current_price
  let risk_per_trade : ℚ := 1/100
  let position_size := Helpers.calculate_position_size portfolio_value
    risk_per_trade current_price stop_loss L.max_position_size
  let sized := position_size * max sig.strength (1/2)
  Helpers.round_quantity sized 8

/-- `RiskManager.calculate_stop_loss` (Python truthiness: `atr=0.0` falls
back to the percentage stop). -/
def calculate_stop_loss (L : RiskLimits) (entry_price : ℚ) (side : OrderSide)
    (atr : Option ℚ) : ℚ :=
  let stop_distance :=
    match atr with
    | some a => if a = 0 then entry_price * L.stop_loss_pct else a * 2
    | none => entry_price * L.stop_loss_pct
  if side = OrderSide.buy then entry_price - stop_distance
  else entry_price + stop_distance

/-- `RiskManager.calculate_take_profit`. -/
def calculate_take_profit (L : RiskLimits) (entry_price : ℚ) (side : OrderSide)
    (risk_reward : ℚ) (atr : Option ℚ) : ℚ :=
  let take_profit_distance :=
    match atr with
    | some a => if a = 0 then entry_price * L.take_profit_pct
                else (a * 2) * risk_reward
    | none => entry_price * L.take_profit_pct
  if side = OrderSide.buy then entry_price + take_profit_distance
  else entry_price - take_profit_distance

/-- `RiskManager.record_trade` (Python truthiness: an exit price of `0.0`
behaves like no exit for the PnL update). -/
def record_trade (now : ℚ) (symbol side : String) (quantity entry_price : ℚ)
    (exit_price : Option ℚ) (s : RiskState) : RiskState :=
  let pnl : ℚ :=
    if optTruthy exit_price then
      let e := exit_price.getD 0
      if strLower side = "buy" then (e - entry_price) * quantity
      else (entry_price - e) * quantity
    else 0
  let s1 := if optTruthy exit_price then { s with daily_pnl := s.daily_pnl + pnl } else s
  { s1 with
    trade_history := s1.trade_history ++
      [{ symbol := symbol, side := side, quantity := quantity,
         entry_price := entry_price, exit_price := exit_price, pnl := pnl,
         timestamp := now }]
    daily_trades := s1.daily_trades + 1
    last_trade_time := some now }

/-- `RiskManager.get_stats` projections. -/
structure Stats where
  total_trades : ℕ
  winning_trades : ℕ
  losing_trades : ℕ
  win_rate : ℚ
  total_pnl : ℚ
  daily_pnl : ℚ
  daily_trades : ℕ
  peak_portfolio : ℚ
deriving DecidableEq, Repr

/-- `RiskManager.get_stats` (a pure read of the state). -/
def get_stats (s : RiskState) : Stats :=
  let total_trades := s.trade_history.length
  let winning_trades := (s.trade_history.filter (fun t => 0 < t.pnl)).length
  let total_pnl := (s.trade_history.map (fun t => t.pnl)).sum
  { total_trades := total_trades
    winning_trades := winning_trades
    losing_trades := total_trades - winning_trades
    win_rate := if 0 < total_trades then (winning_trades : ℚ) / total_trades else 0
    total_pnl := total_pnl
    daily_pnl := s.daily_pnl
    daily_trades := s.daily_trades
    peak_portfolio := s.peak_portfolio_value }

end RiskManager

/-! ## indicators: price series access

Price data is modelled by its `close` column as a `List ℚ`; indices follow
the pandas integer index (`iloc[-1]` is index `length - 1`). -/

/-- `close.iloc[i]`; out-of-range reads never occur in the modelled code
paths (guarded by the length validations). -/
def closeAt (closes : List ℚ) (i : ℕ) : ℚ := closes.getD i 0

/-- `gain = delta.where(delta > 0, 0.0)` with `delta = close.diff()`
(the leading NaN of `diff` is replaced by `0.0` by `where`). -/
def gainAt (closes : List ℚ) : ℕ → ℚ
  | 0 => 0
  | j + 1 =>
    let d := closeAt closes (j + 1) - closeAt closes j
    if 0 < d then d else 0

/-- `loss = (-delta).where(delta < 0, 0.0)`. -/
def lossAt (closes : List ℚ) : ℕ → ℚ
  | 0 => 0
  | j + 1 =>
    let d := closeAt closes (j + 1) - closeAt closes j
    if d < 0 then -d else 0

/-- The averaged-gain/loss series of `RSI._calculate_rsi`: a rolling mean
seed at index `period - 1`, then Wilder smoothing
`avg[i] = (avg[i-1]·(period-1) + g[i]) / period` for `i ≥ period`.
Indices below `period - 1` are NaN in pandas; they are unreachable through
the validated entry points and modelled as `0`. -/
def wilderAvg (g : ℕ → ℚ) (p : ℕ) : ℕ → ℚ
  | 0 => if p = 1 then g 0 else 0
  | i + 1 =>
    if i + 2 < p then 0
    else if i + 2 = p then (Finset.range p).sum g / p
    else (wilderAvg g p i * ((p : ℚ) - 1) + g (i + 1)) / p

/-- `100 - 100/(1 + avg_gain/avg_loss)` under IEEE semantics on the
reachable (nonnegative) averages: `avg_loss = 0` with a positive gain gives
`+inf → 100`, `0/0` gives NaN (`none`). -/
def rsiPoint (g l : ℚ) : Option ℚ :=
  if l = 0 then (if g = 0 then none else some 100)
  else some (100 - 100 / (1 + g / l))

/-- The last RSI value a validated caller observes: `none` when the series
is shorter than `period + 1` (the `validate_data` guard of
`RSI.calculate` / `RSI.get_signal`) or when the point value is NaN. -/
def rsiLast (closes : List ℚ) (p : ℕ) : Option ℚ :=
  if closes.length < p + 1 then none
  else
    rsiPoint (wilderAvg (gainAt closes) p (closes.length - 1))
      (wilderAvg (lossAt closes) p (closes.length - 1))

/-- `IndicatorResult` for scalar-valued indicators (`value = none` models
NaN). -/
structure IndicatorResult where
  name : String
  value : Option ℚ
  signal : Option String := none
  strength : ℚ := 0
deriving DecidableEq, Repr

/-- `RSI.get_signal` of indicators/momentum.py. A NaN RSI (constant
series) compares false against both thresholds, yielding no signal. -/
def RSI.get_signal (p : ℕ) (overbought oversold : ℚ) (closes : List ℚ) :
    IndicatorResult :=
  let nm := "RSI_" ++ toString p
  if closes.length < p + 1 then { name := nm, value := none }
  else
    match rsiLast closes p with
    | none => { name := nm, value := none, signal := none, strength := min 0 1 }
    | some r =>
      if r ≤ oversold then
        { name := nm, value := some r, signal := some "buy",
          strength := min ((oversold - r) / oversold) 1 }
      else if overbought ≤ r then
        { name := nm, value := some r, signal := some "sell",
          strength := min ((r - overbought) / (100 - overbought)) 1 }
      else { name := nm, value := some r, signal := none, strength := min 0 1 }

/-- `ewm(span=s, adjust=False).mean()` recurrence over an indexed series:
`e₀ = x₀`, `eᵢ = α·xᵢ + (1-α)·eᵢ₋₁` with `α = 2/(s+1)`. -/
def ewmRec (span : ℕ) (f : ℕ → ℚ) : ℕ → ℚ
  | 0 => f 0
  | i + 1 =>
    let α : ℚ := 2 / ((span : ℚ) + 1)
    α * f (i + 1) + (1 - α) * ewmRec span f i

/-- `EMA.get_signal` of indicators/moving_averages.py. -/
def EMA.get_signal (p : ℕ) (closes : List ℚ) : IndicatorResult :=
  let nm := "EMA_" ++ toString p
  if closes.length < p then { name := nm, value := none }
  else
    let last := closes.length - 1
    let current_price := closeAt closes last
    let current_ema := ewmRec p (closeAt closes) last
    if current_ema < current_price then
      { name := nm, value := some current_ema, signal := some "buy",
        strength := min (min ((current_price - current_ema) / current_ema) (1/10) * 10) 1 }
    else if current_price < current_ema then
      { name := nm, value := some current_ema, signal := some "sell",
        strength := min (min ((current_ema - current_price) / current_ema) (1/10) * 10) 1 }
    else
      { name := nm, value := some current_ema, signal := none, strength := min 0 1 }

/-- Result of `MACD.get_signal` (its `value` dict flattened to fields;
`none` models the NaN dict returned on insufficient data). -/
structure MACDResult where
  macd : Option ℚ
  signal_line : Option ℚ
  histogram : Option ℚ
  signal : Option String := none
  strength : ℚ := 0
deriving DecidableEq, Repr

/-- `MACD.get_signal` of indicators/momentum.py. -/
def MACD.get_signal (fast slow sigp : ℕ) (closes : List ℚ) : MACDResult :=
  if closes.length < slow + sigp + 1 then
    { macd := none, signal_line := none, histogram := none }
  else
    let n := closes.length
    let m : ℕ → ℚ := fun i => ewmRec fast (closeAt closes) i - ewmRec slow (closeAt closes) i
    let sl := ewmRec sigp m
    let macd_curr := m (n - 1)
    let macd_prev := m (n - 2)
    let signal_curr := sl (n - 1)
    let signal_prev := sl (n - 2)
    let histogram := macd_curr - signal_curr
    if macd_prev ≤ signal_prev ∧ signal_curr < macd_curr then
      { macd := some macd_curr, signal_line := some signal_curr,
        histogram := some histogram, signal := some "buy",
        strength := min (if signal_curr = 0 then 1/2
                         else |macd_curr - signal_curr| / |signal_curr|) 1 }
    else if signal_prev ≤ macd_prev ∧ macd_curr < signal_curr then
      { macd := some macd_curr, signal_line := some signal_curr,
        histogram := some histogram, signal := some "sell",
        strength := min (if signal_curr = 0 then 1/2
                         else |signal_curr - macd_curr| / |signal_curr|) 1 }
    else
      { macd := some macd_curr, signal_line := some signal_curr,
        histogram := some histogram, signal := none, strength := 0 }

/-! ## strategies/rsi_strategy.py and strategies/combined.py

Reason strings interpolate floats with `:.1f` in the source; the model
renders the exact rational instead. The insufficient-data reason string is
reproduced verbatim. -/

namespace RSIStrategy

/-- `RSIStrategy._calculate_min_periods` (`period + 2`). -/
def min_periods (period : ℕ) : ℕ := period + 2

/-- `RSIStrategy.analyze`. -/
def analyze (period : ℕ) (overbought oversold : ℚ) (closes : List ℚ)
    (symbol : String) : TradeSignal :=
  if ¬ validate_data (min_periods period) closes then
    { signal := .hold, symbol := symbol, strategy := "rsi",
      reason := "Insufficient data" }
  else
    let result := RSI.get_signal period overbought oversold closes
    let current_price := closeAt closes (closes.length - 1)
    let inds : List (String × Option ℚ) :=
      [("rsi", result.value), ("overbought", some overbought),
       ("oversold", some oversold), ("price", some current_price)]
    if result.signal = some "buy" then
      { signal := .buy, symbol := symbol, strategy := "rsi",
        strength := result.strength, price := some current_price,
        reason := "RSI oversold at " ++ optToString result.value,
        indicators := inds }
    else if result.signal = some "sell" then
      { signal := .sell, symbol := symbol, strategy := "rsi",
        strength := result.strength, price := some current_price,
        reason := "RSI overbought at " ++ optToString result.value,
        indicators := inds }
    else
      { signal := .hold, symbol := symbol, strategy := "rsi",
        reason := "RSI neutral at " ++ optToString result.value,
        indicators := inds }

end RSIStrategy

namespace CombinedStrategy

/-- `CombinedStrategy._calculate_min_periods`. -/
def min_periods (ema_period rsi_period macd_slow macd_signal : ℕ) : ℕ :=
  max ema_period (max (rsi_period + 1) (macd_slow + macd_signal)) + 2

/-- `CombinedStrategy.analyze` (quorum counting over the EMA, RSI and MACD
sub-signals). -/
def analyze (ema_period rsi_period : ℕ) (rsi_overbought rsi_oversold : ℚ)
    (macd_fast macd_slow macd_signal : ℕ) (min_confirmations : ℕ)
    (closes : List ℚ) (symbol : String) : TradeSignal :=
  if ¬ validate_data (min_periods ema_period rsi_period macd_slow macd_signal) closes then
    { signal := .hold, symbol := symbol, strategy := "combined",
      reason := "Insufficient data" }
  else
    let current_price := closeAt closes (closes.length - 1)
    let ema_result := EMA.get_signal ema_period closes
    let rsi_result := RSI.get_signal rsi_period rsi_overbought rsi_oversold closes
    let macd_result := MACD.get_signal macd_fast macd_slow macd_signal closes
    let buy_count :=
      (if ema_result.signal = some "buy" then 1 else 0) +
      (if rsi_result.signal = some "buy" then 1 else 0) +
      (if macd_result.signal = some "buy" then 1 else 0)
    let sell_count :=
      (if ema_result.signal = some "sell" then 1 else 0) +
      (if rsi_result.signal = some "sell" then 1 else 0) +
      (if macd_result.signal = some "sell" then 1 else 0)
    let inds : List (String × Option ℚ) :=
      [("ema", ema_result.value), ("rsi", rsi_result.value),
       ("macd", macd_result.macd), ("macd_signal", macd_result.signal_line),
       ("macd_histogram", macd_result.histogram), ("price", some current_price),
       ("buy_confirmations", some buy_count), ("sell_confirmations", some sell_count)]
    if min_confirmations ≤ buy_count then
      { signal := .buy, symbol := symbol, strategy := "combined",
        strength := (buy_count : ℚ) / 3, price := some current_price,
        reason := "Buy confirmed", indicators := inds }
    else if min_confirmations ≤ sell_count then
      { signal := .sell, symbol := symbol, strategy := "combined",
        strength := (sell_count : ℚ) / 3, price := some current_price,
        reason := "Sell confirmed", indicators := inds }
    else
      { signal := .hold, symbol := symbol, strategy := "combined",
        reason := "Insufficient confirmations", indicators := inds }

end CombinedStrategy

/-! ## string-keyed dicts (insertion-ordered association lists) -/

/-- `d.get(k)` / `d[k]`. -/
def dictGet {α : Type} (d : List (String × α)) (k : String) : Option α :=
  (d.find? (fun kv => kv.1 == k)).map (fun kv => kv.2)

/-- `d[k] = v`: update in place if present, else append (CPython dict
insertion-order semantics). -/
def dictSet {α : Type} : List (String × α) → String → α → List (String × α)
  | [], k, v => [(k, v)]
  | (k', v') :: rest, k, v =>
    if k' == k then (k, v) :: rest else (k', v') :: dictSet rest k v

/-- `del d[k]`. -/
def dictErase {α : Type} (d : List (String × α)) (k : String) :
    List (String × α) :=
  d.filter (fun kv => kv.1 ≠ k)

/-! ## exchanges/demo.py -/

/-- `str.split(sep)` on character lists (the `''.join` convention of
Python: a leading/trailing separator yields an empty segment). -/
def splitOnChar (sep : Char) : List Char → List (List Char)
  | [] => [[]]
  | c :: cs =>
    match splitOnChar sep cs with
    | [] => [[]]
    | seg :: rest =>
      if c = sep then [] :: seg :: rest else (c :: seg) :: rest

namespace DemoExchange

/-- `DemoExchange._parse_symbol` (string tests expressed over the
character data so they are definitionally computable). -/
def parse_symbol (symbol : String) : String × String :=
  if symbol.data.contains '/' then
    let parts := splitOnChar '/' symbol.data
    (String.mk (parts.getD 0 []), String.mk (parts.getD 1 []))
  else if List.isSuffixOf "USDT".data symbol.data then
    (String.mk (symbol.data.take (symbol.data.length - 4)), "USDT")
  else if List.isSuffixOf "USD".data symbol.data then
    (String.mk (symbol.data.take (symbol.data.length - 3)), "USD")
  else (String.mk (symbol.data.take 3), String.mk (symbol.data.drop 3))

/-- The mutable state of a `DemoExchange` (price history and the sample
generator are out of the modelled claims). -/
structure DemoState where
  fee_rate : ℚ := 1/1000
  slippage : ℚ := 1/2000
  balances : List (String × Balance) := []
  orders : List (String × Order) := []
  positions : List (String × Position) := []
  prices : List (String × ℚ) := []
  /-- deterministic stand-in for the `uuid4` order ids -/
  next_id : ℕ := 0
deriving DecidableEq, Repr

/-- `DemoExchange.__init__` with an explicit starting balance. -/
def init (starting_balance : List (String × ℚ)) (fee_rate slippage : ℚ) :
    DemoState :=
  { fee_rate := fee_rate
    slippage := slippage
    balances := starting_balance.map (fun cb =>
      (cb.1, { currency := cb.1, total := cb.2, available := cb.2, locked := 0 })) }

/-- `get_ticker(...)["last"]` (unset symbols default to `100.0`). -/
def get_ticker_last (st : DemoState) (symbol : String) : ℚ :=
  (dictGet st.prices symbol).getD 100

/-- `DemoExchange._update_position`. -/
def update_position (st : DemoState) (symbol : String) (side : OrderSide)
    (quantity price : ℚ) : DemoState :=
  match dictGet st.positions symbol with
  | some pos =>
    if pos.side = side then
      let total_cost := pos.entry_price * pos.quantity + price * quantity
      let q := pos.quantity + quantity
      { st with positions :=
          (dictSet st.positions symbol
            { pos with quantity := q, entry_price := total_cost / q }) }
    else
      if pos.quantity ≤ quantity then
        ({ st with positions := dictErase st.positions symbol } : DemoState)
      else
        let realized :=
          if pos.side = OrderSide.buy then (price - pos.entry_price) * quantity
          else (pos.entry_price - price) * quantity
        { st with positions :=
            (dictSet st.positions symbol
              { pos with realized_pnl := pos.realized_pnl + realized,
                         quantity := pos.quantity - quantity }) }
  | none =>
    { st with positions :=
        (dictSet st.positions symbol
          { symbol := symbol, side := side, quantity := quantity,
            entry_price := price, current_price := price }) }

/-- `DemoExchange.place_order`. -/
def place_order (st : DemoState) (symbol : String) (side : OrderSide)
    (order_type : OrderType) (quantity : ℚ) (price _stop_price : Option ℚ) :
    DemoState × Order :=
  let order_id := "order_" ++ toString st.next_id
  let st := { st with next_id := st.next_id + 1 }
  let current_price := (dictGet st.prices symbol).getD 100
  let fill_price :=
    if order_type = OrderType.market then
      if side = OrderSide.buy then current_price * (1 + st.slippage)
      else current_price * (1 - st.slippage)
    else
      -- `price or current_price`: a zero or absent limit price falls back
      match price with
      | some pv => if pv = 0 then current_price else pv
      | none => current_price
  let order_value := quantity * fill_price
  let fee := order_value * st.fee_rate
  let bq := parse_symbol symbol
  let base := bq.1
  let quote := bq.2
  let rejected : Order :=
    { id := order_id, symbol := symbol, side := side, order_type := order_type,
      quantity := quantity, price := price, status := .rejected,
      reject_reason := some "Insufficient balance" }
  let filled : Order :=
    { id := order_id, symbol := symbol, side := side, order_type := order_type,
      quantity := quantity, price := price,
      status := if order_type = OrderType.market then .filled else .open',
      filled_quantity := if order_type = OrderType.market then quantity else 0,
      filled_price := if order_type = OrderType.market then fill_price else 0,
      fee := fee }
  if side = OrderSide.buy then
    let required := order_value + fee
    match dictGet st.balances quote with
    | none => (st, rejected)
    | some qb =>
      if qb.available < required then (st, rejected)
      else
        let st := { st with balances :=
          (dictSet st.balances quote
            { qb with available := qb.available - required, total := qb.total - fee }) }
        let bb := (dictGet st.balances base).getD
          { currency := base, total := 0, available := 0 }
        let st := { st with balances :=
          (dictSet st.balances base
            { bb with total := bb.total + quantity, available := bb.available + quantity }) }
        let st := { st with orders := dictSet st.orders order_id filled }
        (update_position st symbol side quantity fill_price, filled)
  else
    match dictGet st.balances base with
    | none => (st, rejected)
    | some bb =>
      if bb.available < quantity then (st, rejected)
      else
        let st := { st with balances :=
          (dictSet st.balances base
            { bb with available := bb.available - quantity, total := bb.total - quantity }) }
        let qb := (dictGet st.balances quote).getD
          { currency := quote, total := 0, available := 0 }
        let st := { st with balances :=
          (dictSet st.balances quote
            { qb with total := qb.total + (order_value - fee),
                      available := qb.available + (order_value - fee) }) }
        let st := { st with orders := dictSet st.orders order_id filled }
        (update_position st symbol side quantity fill_price, filled)

/-- `DemoExchange.get_positions` (the PnL refresh mutates only the returned
snapshot's fields, which the next call recomputes; modelled read-only). -/
def get_positions (st : DemoState) (symbol : Option String) : List Position :=
  let positions : List Position := st.positions.map (fun kv => kv.2)
  let positions :=
    match symbol with
    | some sym => positions.filter (fun (p : Position) => p.symbol == sym)
    | none => positions
  positions.map (fun (p : Position) =>
    let current := (dictGet st.prices p.symbol).getD p.entry_price
    { p with current_price := current,
             unrealized_pnl :=
               if p.side = OrderSide.buy then (current - p.entry_price) * p.quantity
               else (p.entry_price - current) * p.quantity })

/-- `DemoExchange.get_order`. -/
def get_order (st : DemoState) (order_id : String) : Option Order :=
  dictGet st.orders order_id

/-- `DemoExchange.cancel_order`. -/
def cancel_order (st : DemoState) (order_id : String) : DemoState × Bool :=
  match dictGet st.orders order_id with
  | some o =>
    if o.status = OrderStatus.open' then
      ({ st with orders := dictSet st.orders order_id { o with status := .cancelled } }, true)
    else (st, false)
  | none => (st, false)

end DemoExchange

/-! ## order_manager.py -/

/-- The exchange capability surface the order manager calls, as state
transformers over an abstract exchange state `σ` (spec §6). The modelled
calls are total; connectivity exceptions are outside the verified claims. -/
structure ExchangeAPI (σ : Type) where
  get_ticker_last : σ → String → Option ℚ
  get_positions : σ → Option String → List Position
  place_order : σ → String → OrderSide → OrderType → ℚ → Option ℚ → Option ℚ → σ × Order
  cancel_order : σ → String → String → σ × Bool
  get_order : σ → String → String → Option Order

/-- The `ExchangeAPI` instance given by the demo exchange. -/
def DemoExchange.api : ExchangeAPI DemoExchange.DemoState where
  get_ticker_last st sym := some (DemoExchange.get_ticker_last st sym)
  get_positions := DemoExchange.get_positions
  place_order := DemoExchange.place_order
  cancel_order st oid _sym := DemoExchange.cancel_order st oid
  get_order st oid _sym := DemoExchange.get_order st oid

structure ManagedPosition where
  symbol : String
  side : OrderSide
  quantity : ℚ
  entry_price : ℚ
  entry_order_id : String
  stop_loss_order_id : Option String := none
  take_profit_order_id : Option String := none
  stop_loss_price : Option ℚ := none
  take_profit_price : Option ℚ := none
deriving DecidableEq, Repr

/-- The mutable state an `OrderManager` owns or reaches: the exchange
state, the risk manager state, and the managed-position dict.
`next_sim_id` is the deterministic stand-in for the `uuid4` ids of
simulated orders. -/
structure OMState (σ : Type) where
  exch : σ
  risk : RiskState
  managed : List (String × ManagedPosition) := []
  next_sim_id : ℕ := 0

namespace OrderManager

/-- `OrderManager._simulate_order` (dry-run fill plus bookkeeping). -/
def simulate_order {σ : Type} (L : RiskLimits) (now : ℚ) (symbol : String)
    (side : OrderSide) (quantity price : ℚ) (st : OMState σ) :
    OMState σ × Order :=
  let oid := "sim_" ++ toString st.next_sim_id
  let order : Order :=
    { id := oid, symbol := symbol, side := side, order_type := .market,
      quantity := quantity, price := some price, status := .filled,
      filled_quantity := quantity, filled_price := price }
  let managed : ManagedPosition :=
    { symbol := symbol, side := side, quantity := quantity,
      entry_price := price, entry_order_id := oid,
      stop_loss_price := some (RiskManager.calculate_stop_loss L price side none),
      take_profit_price := some (RiskManager.calculate_take_profit L price side 2 none) }
  ({ st with
      next_sim_id := st.next_sim_id + 1
      managed := dictSet st.managed symbol managed
      risk := RiskManager.record_trade now symbol side.value quantity price none st.risk },
   order)

/-- `OrderManager._place_order_with_stops`. -/
def place_order_with_stops {σ : Type} (E : ExchangeAPI σ) (L : RiskLimits)
    (now : ℚ) (symbol : String) (side : OrderSide) (quantity current_price : ℚ)
    (stop_loss take_profit : Option ℚ) (st : OMState σ) :
    OMState σ × Option Order :=
  let r := E.place_order st.exch symbol side .market quantity none none
  let st := { st with exch := r.1 }
  let order := r.2
  if order.status = OrderStatus.rejected then (st, some order)
  else
    let entry_price := if order.filled_price = 0 then current_price else order.filled_price
    let st := { st with risk :=
      RiskManager.record_trade now symbol side.value quantity entry_price none st.risk }
    let stop_loss :=
      match stop_loss with
      | none => some (RiskManager.calculate_stop_loss L entry_price side none)
      | some s => some s
    let take_profit :=
      match take_profit with
      | none => some (RiskManager.calculate_take_profit L entry_price side 2 none)
      | some t => some t
    let managed : ManagedPosition :=
      { symbol := symbol, side := side, quantity := quantity,
        entry_price := entry_price, entry_order_id := order.id,
        stop_loss_price := stop_loss, take_profit_price := take_profit }
    let stop_side := if side = OrderSide.buy then OrderSide.sell else OrderSide.buy
    let r1 :=
      if optTruthy stop_loss then
        let ro := E.place_order st.exch symbol stop_side .stop_loss quantity none stop_loss
        (ro.1, { managed with stop_loss_order_id := some ro.2.id })
      else (st.exch, managed)
    let st := { st with exch := r1.1 }
    let managed := r1.2
    let r2 :=
      if optTruthy take_profit then
        let ro := E.place_order st.exch symbol stop_side .limit quantity take_profit none
        (ro.1, { managed with take_profit_order_id := some ro.2.id })
      else (st.exch, managed)
    let st := { st with exch := r2.1, managed := dictSet st.managed symbol r2.2 }
    (st, some order)

/-- `OrderManager.close_position`. -/
def close_position {σ : Type} (E : ExchangeAPI σ) (L : RiskLimits)
    (dry_run : Bool) (now : ℚ) (symbol : String) (side : Option OrderSide)
    (st : OMState σ) : OMState σ × Option Order :=
  match E.get_positions st.exch (some symbol) with
  | [] => (st, none)
  | position :: _ =>
    if (match side with
        | some sd => decide (position.side ≠ sd)
        | none => false) then (st, none)
    else
      let close_side := if position.side = OrderSide.buy then OrderSide.sell else OrderSide.buy
      if dry_run then
        let current_price := (E.get_ticker_last st.exch symbol).getD 0
        let r := simulate_order L now symbol close_side position.quantity current_price st
        (r.1, some r.2)
      else
        let r := E.place_order st.exch symbol close_side .market position.quantity none none
        let st := { st with exch := r.1 }
        let order := r.2
        if order.status = OrderStatus.filled then
          let st := { st with risk :=
            (RiskManager.record_trade now symbol position.side.value position.quantity
              position.entry_price (some order.filled_price) st.risk) }
          match dictGet st.managed symbol with
          | some managed =>
            let st :=
              match managed.stop_loss_order_id with
              | some oid => { st with exch := (E.cancel_order st.exch oid symbol).1 }
              | none => st
            let st :=
              match managed.take_profit_order_id with
              | some oid => { st with exch := (E.cancel_order st.exch oid symbol).1 }
              | none => st
            ({ st with managed := dictErase st.managed symbol }, some order)
          | none => (st, some order)
        else (st, some order)

/-- The `current_price = ticker.get("last", signal.price)` read of
`execute_signal` (an absent last price and absent signal price would be a
`None` arithmetic error in the source; modelled as 0, unreachable with the
demo exchange). -/
def signal_price {σ : Type} (E : ExchangeAPI σ) (st : OMState σ)
    (sig : TradeSignal) : ℚ :=
  (E.get_ticker_last st.exch sig.symbol).getD (sig.price.getD 0)

/-- `OrderManager.execute_signal`. -/
def execute_signal {σ : Type} (E : ExchangeAPI σ) (L : RiskLimits)
    (dry_run : Bool) (today : ℤ) (now : ℚ) (sig : TradeSignal)
    (portfolio_value : ℚ) (st : OMState σ) : OMState σ × Option Order :=
  if ¬ sig.is_actionable then (st, none)
  else
    let current_positions := (E.get_positions st.exch none).length
    let ct := RiskManager.can_trade L today now portfolio_value current_positions st.risk
    let st := { st with risk := ct.1 }
    if ¬ ct.2.1 then (st, none)
    else
      let current_price := signal_price E st sig
      let quantity := RiskManager.calculate_position_size L sig portfolio_value current_price
      if quantity ≤ 0 then (st, none)
      else
        match sig.signal with
        | .buy =>
          if dry_run then
            let r := simulate_order L now sig.symbol OrderSide.buy quantity current_price st
            (r.1, some r.2)
          else place_order_with_stops E L now sig.symbol OrderSide.buy quantity
                 current_price sig.stop_loss sig.take_profit st
        | .sell =>
          if dry_run then
            let r := simulate_order L now sig.symbol OrderSide.sell quantity current_price st
            (r.1, some r.2)
          else place_order_with_stops E L now sig.symbol OrderSide.sell quantity
                 current_price sig.stop_loss sig.take_profit st
        | .close_long => close_position E L dry_run now sig.symbol (some OrderSide.buy) st
        | .close_short => close_position E L dry_run now sig.symbol (some OrderSide.sell) st
        | .hold => (st, none)

/-- The body of `check_positions` for one snapshot entry: reconcile one
managed symbol against the exchange. -/
def check_positions_step {σ : Type} (E : ExchangeAPI σ) (now : ℚ)
    (st : OMState σ) (symbol : String) (managed : ManagedPosition) :
    OMState σ :=
  if (E.get_positions st.exch (some symbol)).isEmpty then
    { st with managed := dictErase st.managed symbol }
  else
    let st :=
      match managed.stop_loss_order_id with
      | some oid =>
        match E.get_order st.exch oid symbol with
        | some o =>
          if o.status = OrderStatus.filled then
            { st with risk := (RiskManager.record_trade now symbol managed.side.value
                managed.quantity managed.entry_price (some o.filled_price) st.risk) }
          else st
        | none => st
      | none => st
    match managed.take_profit_order_id with
    | some oid =>
      match E.get_order st.exch oid symbol with
      | some o =>
        if o.status = OrderStatus.filled then
          { st with risk := (RiskManager.record_trade now symbol managed.side.value
              managed.quantity managed.entry_price (some o.filled_price) st.risk) }
        else st
      | none => st
    | none => st

/-- `OrderManager.check_positions`: one reconciliation sweep over the
snapshot `list(self.managed_positions.items())`. -/
def check_positions {σ : Type} (E : ExchangeAPI σ) (now : ℚ)
    (st : OMState σ) : OMState σ :=
  st.managed.foldl (fun acc kv => check_positions_step E now acc kv.1 kv.2) st

end OrderManager

/-! ## Concrete instances used by witnesses and counterexamples -/

/-- A buy signal with an explicit stop loss, for concrete evaluations. -/
def sigWitness : TradeSignal :=
  { signal := .buy, symbol := "BTC/USDT", strategy := "rsi", strength := 1,
    stop_loss := some 90 }

/-- A buy signal whose stop loss equals the market price, so the computed
risk per share (and hence the position size) is zero. -/
def sigZeroRisk : TradeSignal :=
  { signal := .buy, symbol := "BTC/USDT", strategy := "rsi", strength := 1,
    stop_loss := some 100 }

/-- A one-position exchange view: the position stays live and the stop-loss
order `sl1` reports `FILLED` on every poll (the situation after a bracket
leg fills but the exchange has not yet dropped the position). -/
def bracketFilledExchange : ExchangeAPI Unit where
  get_ticker_last _ _ := some 100
  get_positions _ _ :=
    [{ symbol := "BTC/USDT", side := .buy, quantity := 1, entry_price := 100 }]
  place_order u _ side _ q _ _ :=
    (u, { id := "x", symbol := "BTC/USDT", side := side, order_type := .market,
          quantity := q })
  cancel_order u _ _ := (u, true)
  get_order _ oid _ :=
    if oid == "sl1" then
      some { id := "sl1", symbol := "BTC/USDT", side := .sell,
             order_type := .stop_loss, quantity := 1, status := .filled,
             filled_quantity := 1, filled_price := 95 }
    else none

/-- Order-manager state with one managed long whose stop-loss bracket is
order `sl1`. -/
def bracketFilledState : OMState Unit :=
  { exch := (), risk := {},
    managed := [("BTC/USDT",
      { symbol := "BTC/USDT", side := .buy, quantity := 1, entry_price := 100,
        entry_order_id := "e1", stop_loss_order_id := some "sl1" })] }

/-- The same scenario after the exchange has dropped the position (the
usual state once a bracket leg fills): no live positions, the stop-loss
order still reports `FILLED`. -/
def positionGoneExchange : ExchangeAPI Unit where
  get_ticker_last _ _ := some 100
  get_positions _ _ := []
  place_order u _ side _ q _ _ :=
    (u, { id := "x", symbol := "BTC/USDT", side := side, order_type := .market,
          quantity := q })
  cancel_order u _ _ := (u, true)
  get_order _ oid _ :=
    if oid == "sl1" then
      some { id := "sl1", symbol := "BTC/USDT", side := .sell,
             order_type := .stop_loss, quantity := 1, status := .filled,
             filled_quantity := 1, filled_price := 95 }
    else none

/-- An exchange view with no positions and a fixed last price, for the
`execute_signal` witness. -/
def flatExchange : ExchangeAPI Unit where
  get_ticker_last _ _ := some 100
  get_positions _ _ := []
  place_order u _ side _ q _ _ :=
    (u, { id := "x", symbol := "BTC/USDT", side := side, order_type := .market,
          quantity := q })
  cancel_order u _ _ := (u, true)
  get_order _ _ _ := none

/-- Demo exchange funded with 10000 USDT, fee 0.1%, default slippage. -/
def demoDefaultSlip : DemoExchange.DemoState :=
  DemoExchange.init [("USDT", 10000)] (1/1000) (1/2000)

/-- Demo exchange funded with 10000 USDT, fee 0.1%, slippage zero. -/
def demoZeroSlip : DemoExchange.DemoState :=
  DemoExchange.init [("USDT", 10000)] (1/1000) 0

/-- A risk state whose stored high-water mark is 100. -/
def riskPeak100 : RiskState := { peak_portfolio_value := 100 }

/-- A fresh order-manager state over the unit exchange state. -/
def omUnitState : OMState Unit := { exch := (), risk := {} }

/-! ## Supporting lemmas -/

theorem round_quantity_le_self (x : ℚ) (p : ℕ) (hx : 0 ≤ x) :
    Helpers.round_quantity x p ≤ x := by
  unfold Helpers.round_quantity
  rw [if_pos hx]
  have h10 : (0 : ℚ) < 10 ^ p := by positivity
  calc ((⌊x * 10 ^ p⌋ : ℤ) : ℚ) / 10 ^ p ≤ (x * 10 ^ p) / 10 ^ p := by
        gcongr
        exact Int.floor_le _
    _ = x := by field_simp

theorem helpers_position_size_bounds (pv rpt e s m : ℚ) (hpv : 0 ≤ pv)
    (he : 0 < e) (hrpt : 0 ≤ rpt) (hm : 0 ≤ m) :
    0 ≤ Helpers.calculate_position_size pv rpt e s m ∧
      Helpers.calculate_position_size pv rpt e s m ≤ pv * m / e := by
  have hcap : (0 : ℚ) ≤ pv * m / e := by positivity
  unfold Helpers.calculate_position_size
  split
  · exact ⟨le_refl 0, hcap⟩
  · split
    · exact ⟨le_refl 0, hcap⟩
    · rename_i hzero hrisk
      have habs : 0 < |e - s| := lt_of_le_of_ne (abs_nonneg _) (Ne.symm hrisk)
      constructor
      · exact le_min (by positivity) hcap
      · exact min_le_right _ _

/-! ## C1: position sizing is capped and rounded down -/

/-- C1: for portfolio_value ≥ 0, current_price > 0, a signal strength in
[0,1] and a positive (explicit or derived) stop loss, the quantity returned
by `RiskManager.calculate_position_size` is at most
`portfolio_value * max_position_size / current_price`; and the final
rounding step (`round_quantity`) never rounds a nonnegative quantity up. -/
theorem calculate_position_size_capped (L : RiskLimits) (sig : TradeSignal)
    (pv price : ℚ) (hpv : 0 ≤ pv) (hp : 0 < price)
    (_hs0 : 0 ≤ sig.strength) (hs1 : sig.strength ≤ 1)
    (hmax : 0 ≤ L.max_position_size)
    (_hstop : 0 < RiskManager.effective_stop L sig price) :
    RiskManager.calculate_position_size L sig pv price ≤
        pv * L.max_position_size / price ∧
      ∀ x : ℚ, 0 ≤ x → Helpers.round_quantity x 8 ≤ x := by
  refine ⟨?_, fun x hx => round_quantity_le_self x 8 hx⟩
  have hb := helpers_position_size_bounds pv (1/100) price
    (RiskManager.effective_stop L sig price) L.max_position_size hpv hp
    (by norm_num) hmax
  have hmx1 : max sig.strength (1/2 : ℚ) ≤ 1 := max_le hs1 (by norm_num)
  have hmx0 : (0 : ℚ) ≤ max sig.strength (1/2 : ℚ) :=
    le_trans (by norm_num) (le_max_right _ _)
  have hsized0 : 0 ≤ Helpers.calculate_position_size pv (1/100) price
      (RiskManager.effective_stop L sig price) L.max_position_size *
      max sig.strength (1/2 : ℚ) := mul_nonneg hb.1 hmx0
  calc RiskManager.calculate_position_size L sig pv price
      ≤ Helpers.calculate_position_size pv (1/100) price
          (RiskManager.effective_stop L sig price) L.max_position_size *
          max sig.strength (1/2 : ℚ) := round_quantity_le_self _ 8 hsized0
    _ ≤ Helpers.calculate_position_size pv (1/100) price
          (RiskManager.effective_stop L sig price) L.max_position_size :=
        mul_le_of_le_one_right hb.1 hmx1
    _ ≤ pv * L.max_position_size / price := hb.2

/-- Witness for C1 at portfolio 1000, price 100, explicit stop 90,
strength 1 and the default limits. -/
theorem calculate_position_size_capped_witness :
    RiskManager.calculate_position_size {} sigWitness 1000 100 ≤
        1000 * RiskLimits.max_position_size {} / 100 ∧
      ∀ x : ℚ, 0 ≤ x → Helpers.round_quantity x 8 ≤ x :=
  calculate_position_size_capped {} sigWitness 1000 100 (by norm_num)
    (by norm_num) (by norm_num [sigWitness]) (by norm_num [sigWitness])
    (by norm_num) (by norm_num [RiskManager.effective_stop, sigWitness])

/-! ## C7: stop-loss / take-profit bracket the entry price -/

/-- C7 counterexample: with the default limits, entry 100 > 0, side BUY,
ATR = 1 > 0 but `risk_reward = 0`, the computed take profit equals the
entry price, so `entry_price < take_profit` fails as the claim quantifies
`risk_reward` without restriction. -/
theorem take_profit_risk_reward_zero :
    ¬ (100 : ℚ) < RiskManager.calculate_take_profit {} 100 OrderSide.buy 0 (some 1) := by
  norm_num [RiskManager.calculate_take_profit]

/-- C7 (amended): with entry_price > 0, the configured stop-loss and
take-profit percentages in (0,1), any supplied ATR positive and a positive
risk/reward ratio, a BUY entry has `stop_loss < entry < take_profit`, and a
SELL entry has `take_profit < entry < stop_loss`. -/
theorem bracket_prices_surround_entry (L : RiskLimits) (entry rr : ℚ)
    (atr : Option ℚ) (hentry : 0 < entry)
    (hsl0 : 0 < L.stop_loss_pct) (_hsl1 : L.stop_loss_pct < 1)
    (htp0 : 0 < L.take_profit_pct) (_htp1 : L.take_profit_pct < 1)
    (hatr : ∀ a, atr = some a → 0 < a) (hrr : 0 < rr) :
    (RiskManager.calculate_stop_loss L entry OrderSide.buy atr < entry ∧
       entry < RiskManager.calculate_take_profit L entry OrderSide.buy rr atr) ∧
      (RiskManager.calculate_take_profit L entry OrderSide.sell rr atr < entry ∧
       entry < RiskManager.calculate_stop_loss L entry OrderSide.sell atr) := by
  have hsl : 0 <
      (match atr with
       | some a => if a = 0 then entry * L.stop_loss_pct else a * 2
       | none => entry * L.stop_loss_pct) := by
    match atr with
    | none => exact mul_pos hentry hsl0
    | some a =>
      rcases eq_or_ne a 0 with rfl | ha
      · simp only [if_pos rfl]; exact mul_pos hentry hsl0
      · have := hatr a rfl
        simp only [if_neg ha]
        exact mul_pos this two_pos
  have htp : 0 <
      (match atr with
       | some a => if a = 0 then entry * L.take_profit_pct else a * 2 * rr
       | none => entry * L.take_profit_pct) := by
    match atr with
    | none => exact mul_pos hentry htp0
    | some a =>
      rcases eq_or_ne a 0 with rfl | ha
      · simp only [if_pos rfl]; exact mul_pos hentry htp0
      · have := hatr a rfl
        simp only [if_neg ha]
        exact mul_pos (mul_pos this two_pos) hrr
  unfold RiskManager.calculate_stop_loss RiskManager.calculate_take_profit
  simp only [reduceCtorEq, if_true, if_false, reduceIte]
  refine ⟨⟨?_, ?_⟩, ⟨?_, ?_⟩⟩ <;> linarith

/-- Witness for C7 (amended) at the default limits, entry 100,
risk/reward 2, ATR 1. -/
theorem bracket_prices_surround_entry_witness :
    (RiskManager.calculate_stop_loss {} 100 OrderSide.buy (some 1) < 100 ∧
       (100 : ℚ) < RiskManager.calculate_take_profit {} 100 OrderSide.buy 2 (some 1)) ∧
      (RiskManager.calculate_take_profit {} 100 OrderSide.sell 2 (some 1) < 100 ∧
       (100 : ℚ) < RiskManager.calculate_stop_loss {} 100 OrderSide.sell (some 1)) :=
  bracket_prices_surround_entry {} 100 2 (some 1) (by norm_num) (by norm_num)
    (by norm_num) (by norm_num) (by norm_num)
    (fun a ha => by rw [← Option.some_inj.mp ha]; norm_num) (by norm_num)

/-! ## Field-preservation lemmas for the risk-state operations -/

theorem reset_daily_trade_history (today : ℤ) (s : RiskState) :
    (RiskManager.reset_daily today s).trade_history = s.trade_history := by
  unfold RiskManager.reset_daily
  split_ifs <;> rfl

theorem reset_daily_last_trade_time (today : ℤ) (s : RiskState) :
    (RiskManager.reset_daily today s).last_trade_time = s.last_trade_time := by
  unfold RiskManager.reset_daily
  split_ifs <;> rfl

theorem reset_daily_peak (today : ℤ) (s : RiskState) :
    (RiskManager.reset_daily today s).peak_portfolio_value =
      s.peak_portfolio_value := by
  unfold RiskManager.reset_daily
  split_ifs <;> rfl

theorem update_peak_trade_history (v : ℚ) (s : RiskState) :
    (RiskManager.update_portfolio_peak v s).trade_history = s.trade_history := by
  unfold RiskManager.update_portfolio_peak
  split_ifs <;> rfl

theorem update_peak_last_trade_time (v : ℚ) (s : RiskState) :
    (RiskManager.update_portfolio_peak v s).last_trade_time =
      s.last_trade_time := by
  unfold RiskManager.update_portfolio_peak
  split_ifs <;> rfl

theorem check_drawdown_trade_history (L : RiskLimits) (v : ℚ) (s : RiskState) :
    ((RiskManager.check_drawdown L v s).1).trade_history = s.trade_history := by
  unfold RiskManager.check_drawdown
  dsimp only
  split_ifs <;> rfl

theorem check_drawdown_last_trade_time (L : RiskLimits) (v : ℚ) (s : RiskState) :
    ((RiskManager.check_drawdown L v s).1).last_trade_time =
      s.last_trade_time := by
  unfold RiskManager.check_drawdown
  dsimp only
  split_ifs <;> rfl

/-- Whatever gate fires, `can_trade` returns the post-reset/post-peak
state. -/
theorem can_trade_fst (L : RiskLimits) (today : ℤ) (now pv : ℚ) (npos : ℕ)
    (s : RiskState) :
    (RiskManager.can_trade L today now pv npos s).1 =
      (RiskManager.post_gate_state L today pv s).1 := by
  unfold RiskManager.can_trade
  dsimp only
  split_ifs <;> rfl

/-! ## C4: which operations mutate the risk state -/

/-- C4 counterexample: `can_trade` itself mutates `RiskState` — with the
default limits and a fresh state, `can_trade` at portfolio value 100 raises
`peak_portfolio_value` from 0 to 100, so `record_trade` is not the only
mutator. -/
theorem can_trade_mutates_state :
    (RiskManager.can_trade {} 0 0 100 0 {}).1.peak_portfolio_value ≠
      RiskState.peak_portfolio_value {} := by
  rw [can_trade_fst]
  norm_num [RiskManager.post_gate_state, RiskManager.check_drawdown,
    RiskManager.update_portfolio_peak, RiskManager.reset_daily]

/-- C4 (amended): `record_trade` is the only operation that appends to the
trade history or stamps the last-trade time — `can_trade` preserves both
(its side effects are limited to the daily counters, the day marker and the
high-water mark), and `record_trade` appends exactly one record, increments
the daily trade counter and stamps the last-trade time. The remaining
operations (`calculate_position_size`, `calculate_stop_loss`,
`calculate_take_profit`, `get_stats`) are pure reads in the source and take
no state. -/
theorem record_trade_only_history_mutator (L : RiskLimits) (today : ℤ)
    (now pv : ℚ) (npos : ℕ) (s : RiskState) (symbol side : String)
    (quantity entry_price : ℚ) (exit_price : Option ℚ) :
    ((RiskManager.can_trade L today now pv npos s).1.trade_history =
        s.trade_history ∧
      (RiskManager.can_trade L today now pv npos s).1.last_trade_time =
        s.last_trade_time) ∧
      ((RiskManager.record_trade now symbol side quantity entry_price
          exit_price s).trade_history.length = s.trade_history.length + 1 ∧
        (RiskManager.record_trade now symbol side quantity entry_price
          exit_price s).daily_trades = s.daily_trades + 1 ∧
        (RiskManager.record_trade now symbol side quantity entry_price
          exit_price s).last_trade_time = some now) := by
  refine ⟨⟨?_, ?_⟩, ?_⟩
  · rw [can_trade_fst]
    unfold RiskManager.post_gate_state
    rw [check_drawdown_trade_history, update_peak_trade_history,
      reset_daily_trade_history]
  · rw [can_trade_fst]
    unfold RiskManager.post_gate_state
    rw [check_drawdown_last_trade_time, update_peak_last_trade_time,
      reset_daily_last_trade_time]
  · unfold RiskManager.record_trade
    split_ifs <;> simp

/-! ## C5: the daily counters reset exactly once per new calendar day -/

/-- C5: when `reset_daily` runs on a calendar day different from the stored
one it zeroes `daily_trades` and `daily_pnl` and stamps the new day; a
repeated call on the same day is a no-op (so the reset happens exactly once
per new day); and `can_trade` gates on the already-reset state (running it
on `s` is the same as running it on `reset_daily today s`). -/
theorem reset_daily_once_per_day (L : RiskLimits) (today : ℤ) (now pv : ℚ)
    (npos : ℕ) (s : RiskState) (hnew : today ≠ s.current_date) :
    ((RiskManager.reset_daily today s).daily_trades = 0 ∧
      (RiskManager.reset_daily today s).daily_pnl = 0 ∧
      (RiskManager.reset_daily today s).current_date = today) ∧
      RiskManager.reset_daily today (RiskManager.reset_daily today s) =
        RiskManager.reset_daily today s ∧
      RiskManager.can_trade L today now pv npos s =
        RiskManager.can_trade L today now pv npos
          (RiskManager.reset_daily today s) := by
  have hfix : RiskManager.reset_daily today (RiskManager.reset_daily today s) =
      RiskManager.reset_daily today s := by
    unfold RiskManager.reset_daily
    rw [if_pos hnew]
    simp
  refine ⟨?_, hfix, ?_⟩
  · unfold RiskManager.reset_daily
    rw [if_pos hnew]
    simp
  · unfold RiskManager.can_trade RiskManager.post_gate_state
    rw [hfix]

/-! ## C3: gate evaluation order of can_trade -/

/-- C3: `can_trade` first resets the daily counters and raises the
high-water mark (the `post_gate_state`), then evaluates drawdown, daily
loss, trade frequency, daily trade count and open-position count in that
order, returning the reason of the first failing gate and `(true, "OK")`
when none fails; in particular, with a positive stored peak, a nonnegative
drawdown limit and `portfolio_value = peak * (1 - max_drawdown - eps)` for
any `eps > 0`, it returns `(false, "Drawdown limit exceeded")`. -/
theorem can_trade_first_failing_gate (L : RiskLimits) (today : ℤ)
    (now pv : ℚ) (npos : ℕ) (s : RiskState) :
    ((RiskManager.post_gate_state L today pv s).2 = false →
        RiskManager.can_trade L today now pv npos s =
          ((RiskManager.post_gate_state L today pv s).1, false,
            "Drawdown limit exceeded")) ∧
      ((RiskManager.post_gate_state L today pv s).2 = true →
        RiskManager.check_daily_loss L
            (RiskManager.post_gate_state L today pv s).1 = false →
        RiskManager.can_trade L today now pv npos s =
          ((RiskManager.post_gate_state L today pv s).1, false,
            "Daily loss limit exceeded")) ∧
      ((RiskManager.post_gate_state L today pv s).2 = true →
        RiskManager.check_daily_loss L
            (RiskManager.post_gate_state L today pv s).1 = true →
        RiskManager.check_trade_frequency L now
            (RiskManager.post_gate_state L today pv s).1 = false →
        RiskManager.can_trade L today now pv npos s =
          ((RiskManager.post_gate_state L today pv s).1, false,
            "Trade frequency limit")) ∧
      ((RiskManager.post_gate_state L today pv s).2 = true →
        RiskManager.check_daily_loss L
            (RiskManager.post_gate_state L today pv s).1 = true →
        RiskManager.check_trade_frequency L now
            (RiskManager.post_gate_state L today pv s).1 = true →
        RiskManager.check_daily_trade_count L
            (RiskManager.post_gate_state L today pv s).1 = false →
        RiskManager.can_trade L today now pv npos s =
          ((RiskManager.post_gate_state L today pv s).1, false,
            "Daily trade count exceeded")) ∧
      ((RiskManager.post_gate_state L today pv s).2 = true →
        RiskManager.check_daily_loss L
            (RiskManager.post_gate_state L today pv s).1 = true →
        RiskManager.check_trade_frequency L now
            (RiskManager.post_gate_state L today pv s).1 = true →
        RiskManager.check_daily_trade_count L
            (RiskManager.post_gate_state L today pv s).1 = true →
        RiskManager.check_position_count L npos = false →
        RiskManager.can_trade L today now pv npos s =
          ((RiskManager.post_gate_state L today pv s).1, false,
            "Max positions reached")) ∧
      ((RiskManager.post_gate_state L today pv s).2 = true →
        RiskManager.check_daily_loss L
            (RiskManager.post_gate_state L today pv s).1 = true →
        RiskManager.check_trade_frequency L now
            (RiskManager.post_gate_state L today pv s).1 = true →
        RiskManager.check_daily_trade_count L
            (RiskManager.post_gate_state L today pv s).1 = true →
        RiskManager.check_position_count L npos = true →
        RiskManager.can_trade L today now pv npos s =
          ((RiskManager.post_gate_state L today pv s).1, true, "OK")) ∧
      (∀ eps : ℚ, 0 < eps → 0 < s.peak_portfolio_value →
        0 ≤ L.max_drawdown →
        pv = s.peak_portfolio_value * (1 - L.max_drawdown - eps) →
        (RiskManager.can_trade L today now pv npos s).2 =
          (false, "Drawdown limit exceeded")) := by
  refine ⟨?_, ?_, ?_, ?_, ?_, ?_, ?_⟩
  · intro h1
    unfold RiskManager.can_trade
    dsimp only
    simp [h1]
  · intro h1 h2
    unfold RiskManager.can_trade
    dsimp only
    simp [h1, h2]
  · intro h1 h2 h3
    unfold RiskManager.can_trade
    dsimp only
    simp [h1, h2, h3]
  · intro h1 h2 h3 h4
    unfold RiskManager.can_trade
    dsimp only
    simp [h1, h2, h3, h4]
  · intro h1 h2 h3 h4 h5
    unfold RiskManager.can_trade
    dsimp only
    simp [h1, h2, h3, h4, h5]
  · intro h1 h2 h3 h4 h5
    unfold RiskManager.can_trade
    dsimp only
    simp [h1, h2, h3, h4, h5]
  · intro eps heps hpk hmd hpveq
    have hmdeps : 0 < L.max_drawdown + eps := by linarith
    have hlt : pv < s.peak_portfolio_value := by
      have hmul := mul_pos hpk hmdeps
      nlinarith [hmul]
    have hnoupd : ¬ ((RiskManager.reset_daily today s).peak_portfolio_value < pv) := by
      rw [reset_daily_peak]
      exact not_lt.mpr hlt.le
    have hupd : RiskManager.update_portfolio_peak pv (RiskManager.reset_daily today s) =
        RiskManager.reset_daily today s := by
      unfold RiskManager.update_portfolio_peak
      rw [if_neg hnoupd]
    have hpos : ¬ ((RiskManager.reset_daily today s).peak_portfolio_value ≤ 0) := by
      rw [reset_daily_peak]
      exact not_le.mpr hpk
    have hfail : L.max_drawdown <
        ((RiskManager.reset_daily today s).peak_portfolio_value - pv) /
          (RiskManager.reset_daily today s).peak_portfolio_value := by
      rw [reset_daily_peak, hpveq]
      have hne : s.peak_portfolio_value ≠ 0 := ne_of_gt hpk
      have hq : (s.peak_portfolio_value -
          s.peak_portfolio_value * (1 - L.max_drawdown - eps)) /
            s.peak_portfolio_value = L.max_drawdown + eps := by
        field_simp
        ring
      rw [hq]
      linarith

    have hdd : RiskManager.post_gate_state L today pv s =
        (RiskManager.reset_daily today s, false) := by
      unfold RiskManager.post_gate_state
      rw [hupd]
      unfold RiskManager.check_drawdown
      dsimp only
      rw [if_neg hpos, if_pos hfail]
    unfold RiskManager.can_trade
    dsimp only
    rw [hdd]
    simp

/-- Witness for C3: default limits, peak 100, portfolio value
80 = 100·(1 − 0.15 − 0.05). -/
theorem can_trade_first_failing_gate_witness :
    (RiskManager.can_trade {} 0 0 80 0 riskPeak100).2 =
      (false, "Drawdown limit exceeded") :=
  (can_trade_first_failing_gate {} 0 0 80 0 riskPeak100).2.2.2.2.2.2
    (1/20) (by norm_num) (by norm_num [riskPeak100]) (by norm_num)
    (by norm_num [riskPeak100])

/-! ## C2: reconciliation of a filled bracket order is not exactly-once -/

/-- C2: evaluating `check_positions` at the failing input. One managed
long (qty 1, entry 100) carries stop-loss bracket order `sl1`; the
exchange reports the order `FILLED` (exit 95). While the exchange still
reports the position live, every `check_positions` sweep records the same
exit again — one `record_trade` after the first call, two after the
second — because `check_positions` never clears `stop_loss_order_id`.
And if the exchange has already dropped the position, the sweep deletes
the managed entry without recording the exit at all. The exit is therefore
not recorded exactly once. -/
theorem check_positions_records_exit_per_sweep :
    (OrderManager.check_positions bracketFilledExchange 0
        bracketFilledState).risk.trade_history.length = 1 ∧
      (OrderManager.check_positions bracketFilledExchange 0
        (OrderManager.check_positions bracketFilledExchange 0
          bracketFilledState)).risk.trade_history.length = 2 ∧
      (OrderManager.check_positions positionGoneExchange 0
        bracketFilledState).risk.trade_history.length = 0 ∧
      (OrderManager.check_positions positionGoneExchange 0
        bracketFilledState).managed = [] := by
  refine ⟨?_, ?_, ?_, ?_⟩ <;>
    norm_num [OrderManager.check_positions, OrderManager.check_positions_step,
      bracketFilledExchange, bracketFilledState, positionGoneExchange,
      RiskManager.record_trade, optTruthy, strLower, dictGet, dictErase,
      List.find?]

/-! ## C9: demo-exchange balance after a market buy -/

theorem parse_symbol_btc_usdt :
    DemoExchange.parse_symbol "BTC/USDT" = ("BTC", "USDT") := rfl

/-- C9 counterexample: on the demo exchange initialized with 10000 USDT
and fee 0.001 (slippage keeping its default 0.0005), a market buy of 1 at
price 100 fills at 100.05, so the quote balance afterwards is
available = 9899.84995 and total = 9999.89995 — neither equals the claimed
9899.9. -/
theorem demo_buy_balance_with_default_slippage :
    (dictGet (DemoExchange.place_order demoDefaultSlip "BTC/USDT"
        .buy .market 1 none none).1.balances "USDT").map Balance.available =
        some (197996999/20000) ∧
      (dictGet (DemoExchange.place_order demoDefaultSlip "BTC/USDT"
        .buy .market 1 none none).1.balances "USDT").map Balance.total =
        some (199997999/20000) ∧
      (197996999/20000 : ℚ) ≠ 98999/10 ∧ (199997999/20000 : ℚ) ≠ 98999/10 := by
  refine ⟨?_, ?_, by norm_num, by norm_num⟩ <;>
    norm_num [DemoExchange.place_order, demoDefaultSlip, DemoExchange.init,
      parse_symbol_btc_usdt, DemoExchange.update_position, dictGet, dictSet,
      List.find?]

/-- C9 (amended): with slippage additionally set to 0, the buy fills at
100, the quote available balance is exactly 10000 − 100×1.001 = 9899.9,
the quote total drops only by the fee (to 9999.9 — the demo exchange
deducts the principal only from `available`), and exactly 1.0 of the base
currency is credited (total and available). -/
theorem demo_buy_balance_zero_slippage :
    (dictGet (DemoExchange.place_order demoZeroSlip "BTC/USDT"
        .buy .market 1 none none).1.balances "USDT").map Balance.available =
        some (98999/10) ∧
      (dictGet (DemoExchange.place_order demoZeroSlip "BTC/USDT"
        .buy .market 1 none none).1.balances "USDT").map Balance.total =
        some (99999/10) ∧
      (dictGet (DemoExchange.place_order demoZeroSlip "BTC/USDT"
        .buy .market 1 none none).1.balances "BTC").map Balance.total =
        some 1 ∧
      (dictGet (DemoExchange.place_order demoZeroSlip "BTC/USDT"
        .buy .market 1 none none).1.balances "BTC").map Balance.available =
        some 1 := by
  refine ⟨?_, ?_, ?_, ?_⟩ <;>
    norm_num [DemoExchange.place_order, demoZeroSlip, DemoExchange.init,
      parse_symbol_btc_usdt, DemoExchange.update_position, dictGet, dictSet,
      List.find?, show ("USDT" == "BTC") = false from rfl,
      show ("BTC" == "USDT") = false from rfl]

/-! ## C6: RSI range and saturation on rising series -/

theorem wilderAvg_nonneg (g : ℕ → ℚ) (p : ℕ) (hg : ∀ j, 0 ≤ g j) :
    ∀ i, 0 ≤ wilderAvg g p i := by
  intro i
  induction i with
  | zero =>
    unfold wilderAvg
    split_ifs
    · exact hg 0
    · exact le_refl 0
  | succ i ih =>
    unfold wilderAvg
    split_ifs with h1 h2
    · exact le_refl 0
    · exact div_nonneg (Finset.sum_nonneg fun j _ => hg j) (Nat.cast_nonneg p)
    · rcases Nat.eq_zero_or_pos p with hp | hp
      · subst hp
        simp
      · apply div_nonneg
        · have hp1 : (1 : ℚ) ≤ (p : ℚ) := by exact_mod_cast hp
          exact add_nonneg (mul_nonneg ih (by linarith)) (hg (i + 1))
        · exact Nat.cast_nonneg p

theorem wilderAvg_eq_zero (g : ℕ → ℚ) (p : ℕ) :
    ∀ i, (∀ j, j ≤ i → g j = 0) → wilderAvg g p i = 0 := by
  intro i
  induction i with
  | zero =>
    intro hz
    unfold wilderAvg
    split_ifs
    · exact hz 0 le_rfl
    · rfl
  | succ i ih =>
    intro hz
    unfold wilderAvg
    split_ifs with h1 h2
    · rfl
    · have hzero : ∀ j ∈ Finset.range p, g j = 0 := fun j hj =>
        hz j (by have := Finset.mem_range.mp hj; omega)
      rw [Finset.sum_congr rfl hzero]
      simp
    · rw [ih (fun j hj => hz j (le_trans hj (Nat.le_succ i))), hz (i + 1) le_rfl]
      simp

theorem wilderAvg_pos_of_two_le (g : ℕ → ℚ) (p : ℕ) (hp : 2 ≤ p)
    (hg0 : ∀ j, 0 ≤ g j) :
    ∀ i, p - 1 ≤ i → (∀ j, 1 ≤ j → j ≤ i → 0 < g j) → 0 < wilderAvg g p i := by
  intro i
  induction i with
  | zero => intro h _; omega
  | succ i ih =>
    intro hle hpos
    have hpq : (0 : ℚ) < (p : ℚ) := by exact_mod_cast (by omega : 0 < p)
    unfold wilderAvg
    split_ifs with h1 h2
    · omega
    · apply div_pos
      · refine Finset.sum_pos' (fun j _ => hg0 j)
          ⟨1, Finset.mem_range.mpr (by omega), ?_⟩
        exact hpos 1 le_rfl (by omega)
      · exact hpq
    · have hih : 0 < wilderAvg g p i :=
        ih (by omega) (fun j hj1 hj2 => hpos j hj1 (by omega))
      apply div_pos
      · have h2q : (2 : ℚ) ≤ (p : ℚ) := by exact_mod_cast hp
        have : (0 : ℚ) < (p : ℚ) - 1 := by linarith
        exact add_pos_of_pos_of_nonneg (mul_pos hih this) (hg0 (i + 1))
      · exact hpq

theorem gainAt_nonneg (closes : List ℚ) : ∀ j, 0 ≤ gainAt closes j := by
  intro j
  cases j with
  | zero => exact le_refl 0
  | succ k =>
    simp only [gainAt]
    split_ifs with h
    · exact le_of_lt h
    · exact le_refl 0

/-- C6: every RSI value the indicator computes lies in [0, 100], and on a
strictly rising close series longer than the period the computed RSI is
exactly 100 (the average loss vanishes), so the value saturates at — and in
particular converges to — 100 as such a series extends. -/
theorem rsi_in_range_and_saturates_on_rising :
    (∀ (closes : List ℚ) (p : ℕ) (r : ℚ),
        rsiLast closes p = some r → 0 ≤ r ∧ r ≤ 100) ∧
      ∀ (closes : List ℚ) (p : ℕ), 1 ≤ p → p + 1 ≤ closes.length →
        List.Chain' (· < ·) closes → rsiLast closes p = some 100 := by
  constructor
  · intro closes p r hr
    unfold rsiLast at hr
    split_ifs at hr with hlen
    have hG := wilderAvg_nonneg (gainAt closes) p (gainAt_nonneg closes)
      (closes.length - 1)
    have hLnn : ∀ j, 0 ≤ lossAt closes j := by
      intro j
      cases j with
      | zero => exact le_refl 0
      | succ k =>
        simp only [lossAt]
        split_ifs with h
        · linarith
        · exact le_refl 0
    have hL := wilderAvg_nonneg (lossAt closes) p hLnn (closes.length - 1)
    unfold rsiPoint at hr
    split_ifs at hr with h1 h2
    · cases hr
      norm_num
    · cases hr
      have hLpos : 0 < wilderAvg (lossAt closes) p (closes.length - 1) :=
        lt_of_le_of_ne hL (Ne.symm h1)
      have hq : 0 ≤ wilderAvg (gainAt closes) p (closes.length - 1) /
          wilderAvg (lossAt closes) p (closes.length - 1) := div_nonneg hG hL
      have h1q : (0 : ℚ) < 1 + wilderAvg (gainAt closes) p
          (closes.length - 1) /
          wilderAvg (lossAt closes) p (closes.length - 1) := by linarith
      have hdivle : 100 / (1 + wilderAvg (gainAt closes) p
          (closes.length - 1) /
          wilderAvg (lossAt closes) p (closes.length - 1)) ≤ 100 := by
        rw [div_le_iff₀ h1q]
        nlinarith
      have hdivpos : 0 < 100 / (1 + wilderAvg (gainAt closes) p
          (closes.length - 1) / wilderAvg (lossAt closes) p
          (closes.length - 1)) := by positivity
      constructor <;> linarith
  · intro closes p hp hlen hchain
    have hget := List.chain'_iff_get.mp hchain
    have hgain_pos : ∀ j, 1 ≤ j → j ≤ closes.length - 1 →
        0 < gainAt closes j := by
      intro j hj1 hj2
      obtain ⟨k, rfl⟩ : ∃ k, j = k + 1 := ⟨j - 1, by omega⟩
      have hk1 : k + 1 < closes.length := by omega
      have hd : closes.getD k 0 < closes.getD (k + 1) 0 := by
        rw [List.getD_eq_getElem closes 0 (show k < closes.length by omega),
          List.getD_eq_getElem closes 0 hk1]
        have := hget k (by omega)
        simpa using this
      simp only [gainAt, closeAt]
      rw [if_pos (by linarith)]
      linarith
    have hloss_zero : ∀ j, j ≤ closes.length - 1 → lossAt closes j = 0 := by
      intro j hj
      cases j with
      | zero => rfl
      | succ k =>
        have hk1 : k + 1 < closes.length := by omega
        have hd : closes.getD k 0 < closes.getD (k + 1) 0 := by
          rw [List.getD_eq_getElem closes 0 (show k < closes.length by omega),
            List.getD_eq_getElem closes 0 hk1]
          have := hget k (by omega)
          simpa using this
        simp only [lossAt, closeAt]
        rw [if_neg (by linarith)]
    have hL : wilderAvg (lossAt closes) p (closes.length - 1) = 0 :=
      wilderAvg_eq_zero _ p (closes.length - 1) hloss_zero
    have hG : 0 < wilderAvg (gainAt closes) p (closes.length - 1) := by
      rcases eq_or_lt_of_le hp with hp1 | hp2
      · obtain ⟨i, hi⟩ : ∃ i, closes.length - 1 = i + 1 :=
          ⟨closes.length - 2, by omega⟩
        rw [hi]
        unfold wilderAvg
        rw [if_neg (by omega), if_neg (by omega)]
        rw [← hp1]
        norm_num
        exact hgain_pos (i + 1) (by omega) (by omega)
      · exact wilderAvg_pos_of_two_le _ p (by omega) (gainAt_nonneg closes)
          (closes.length - 1) (by omega) hgain_pos
    unfold rsiLast
    rw [if_neg (not_lt.mpr hlen)]
    unfold rsiPoint
    rw [hL, if_pos rfl, if_neg hG.ne']

/-- Witness for C6: the falling series [2, 1] computes RSI 0 (in range),
and the rising series [1, 2] with period 1 computes RSI exactly 100. -/
theorem rsi_in_range_and_saturates_on_rising_witness :
    (0 ≤ (0 : ℚ) ∧ (0 : ℚ) ≤ 100) ∧ rsiLast [1, 2] 1 = some 100 :=
  ⟨rsi_in_range_and_saturates_on_rising.1 [2, 1] 1 0
      (by norm_num [rsiLast, rsiPoint, wilderAvg, gainAt, lossAt, closeAt]),
    rsi_in_range_and_saturates_on_rising.2 [1, 2] 1 (by norm_num)
      (by norm_num)
      (by norm_num [List.chain'_cons, List.chain'_singleton])⟩

/-! ## C10: position sizing is total; zero quantity is a no-op -/

/-- C10: `helpers.calculate_position_size` returns 0 whenever the entry
price or stop price is non-positive or they coincide (no division by
zero), and whenever the computed quantity is ≤ 0, `execute_signal` places
no order and returns `None` — for every exchange implementation the
exchange state, the managed positions and the simulated-order counter are
left untouched (only the risk gate's own bookkeeping may run). -/
theorem execute_signal_zero_quantity {σ : Type} (E : ExchangeAPI σ)
    (L : RiskLimits) (dry_run : Bool) (today : ℤ) (now : ℚ)
    (sig : TradeSignal) (pv : ℚ) (st : OMState σ)
    (hq : RiskManager.calculate_position_size L sig pv
      (OrderManager.signal_price E st sig) ≤ 0) :
    ((OrderManager.execute_signal E L dry_run today now sig pv st).2 = none ∧
      (OrderManager.execute_signal E L dry_run today now sig pv st).1.exch =
        st.exch ∧
      (OrderManager.execute_signal E L dry_run today now sig pv st).1.managed =
        st.managed ∧
      (OrderManager.execute_signal E L dry_run today now sig pv
        st).1.next_sim_id = st.next_sim_id) ∧
      ∀ pv' rpt e s m : ℚ, e ≤ 0 ∨ s ≤ 0 ∨ e = s →
        Helpers.calculate_position_size pv' rpt e s m = 0 := by
  constructor
  · have hsp : ∀ r : RiskState,
        OrderManager.signal_price E
          { exch := st.exch, risk := r, managed := st.managed,
            next_sim_id := st.next_sim_id } sig =
          OrderManager.signal_price E st sig := fun _ => rfl
    unfold OrderManager.execute_signal
    dsimp only
    cases hb : sig.is_actionable with
    | false => simp
    | true =>
      rw [if_neg (by simp)]
      by_cases hct : (RiskManager.can_trade L today now pv
          (E.get_positions st.exch none).length st.risk).2.1
      · rw [if_neg (by simp [hct])]
        rw [hsp, if_pos hq]
        simp
      · rw [if_pos (by simp [hct])]
        simp
  · intro pv' rpt e s m h
    unfold Helpers.calculate_position_size
    split_ifs with h1 h2
    · rfl
    · rfl
    · rcases h with h | h | h
      · exact absurd (Or.inl h) h1
      · exact absurd (Or.inr h) h1
      · exact absurd (by rw [h, sub_self, abs_zero]) h2

/-- Witness for C10: a buy signal whose explicit stop equals the market
price of 100 computes quantity 0, and `execute_signal` is a no-op. -/
theorem execute_signal_zero_quantity_witness :
    ((OrderManager.execute_signal flatExchange {} true 0 0 sigZeroRisk 1000
        omUnitState).2 = none ∧
      (OrderManager.execute_signal flatExchange {} true 0 0 sigZeroRisk 1000
        omUnitState).1.exch = omUnitState.exch ∧
      (OrderManager.execute_signal flatExchange {} true 0 0 sigZeroRisk 1000
        omUnitState).1.managed = omUnitState.managed ∧
      (OrderManager.execute_signal flatExchange {} true 0 0 sigZeroRisk 1000
        omUnitState).1.next_sim_id = omUnitState.next_sim_id) ∧
      ∀ pv' rpt e s m : ℚ, e ≤ 0 ∨ s ≤ 0 ∨ e = s →
        Helpers.calculate_position_size pv' rpt e s m = 0 :=
  execute_signal_zero_quantity flatExchange {} true 0 0 sigZeroRisk 1000
    omUnitState (by
      norm_num [RiskManager.calculate_position_size,
        RiskManager.effective_stop, OrderManager.signal_price, flatExchange,
        omUnitState, sigZeroRisk, Helpers.calculate_position_size,
        Helpers.round_quantity])

/-! ## C8: insufficient history yields a Hold signal -/

/-- C8: for the RSI and Combined strategy evaluators, any close series
shorter than the evaluator's minimum-lookback requirement makes `analyze`
return a Hold `TradeSignal` with the human-readable reason
"Insufficient data" (the evaluators are total functions, so no error is
raised). -/
theorem analyze_insufficient_data_holds :
    (∀ (p : ℕ) (ob os : ℚ) (closes : List ℚ) (symbol : String),
        closes.length < RSIStrategy.min_periods p →
        (RSIStrategy.analyze p ob os closes symbol).signal = Signal.hold ∧
          (RSIStrategy.analyze p ob os closes symbol).reason =
            "Insufficient data") ∧
      ∀ (ep rp : ℕ) (ob os : ℚ) (mf ms msig mc : ℕ) (closes : List ℚ)
        (symbol : String),
        closes.length < CombinedStrategy.min_periods ep rp ms msig →
        (CombinedStrategy.analyze ep rp ob os mf ms msig mc closes
            symbol).signal = Signal.hold ∧
          (CombinedStrategy.analyze ep rp ob os mf ms msig mc closes
            symbol).reason = "Insufficient data" := by
  constructor
  · intro p ob os closes symbol h
    have hv : validate_data (RSIStrategy.min_periods p) closes = false := by
      simp only [validate_data, decide_eq_false_iff_not]
      omega
    unfold RSIStrategy.analyze
    rw [hv]
    simp
  · intro ep rp ob os mf ms msig mc closes symbol h
    have hv : validate_data (CombinedStrategy.min_periods ep rp ms msig)
        closes = false := by
      simp only [validate_data, decide_eq_false_iff_not]
      omega
    unfold CombinedStrategy.analyze
    rw [hv]
    simp

/-- Witness for C8: a three-sample series against the default lookbacks. -/
theorem analyze_insufficient_data_holds_witness :
    ((RSIStrategy.analyze 14 70 30 [1, 2, 3] "X").signal = Signal.hold ∧
      (RSIStrategy.analyze 14 70 30 [1, 2, 3] "X").reason =
        "Insufficient data") ∧
      ((CombinedStrategy.analyze 20 14 70 30 12 26 9 2 [1, 2, 3] "X").signal =
          Signal.hold ∧
        (CombinedStrategy.analyze 20 14 70 30 12 26 9 2 [1, 2, 3] "X").reason =
          "Insufficient data") :=
  ⟨(analyze_insufficient_data_holds.1 14 70 30 [1, 2, 3] "X" (by
      norm_num [RSIStrategy.min_periods])),
    (analyze_insufficient_data_holds.2 20 14 70 30 12 26 9 2 [1, 2, 3] "X" (by
      norm_num [CombinedStrategy.min_periods]))⟩

/-- Witness for C5: day 1 against a fresh state stamped with day 0. -/
theorem reset_daily_once_per_day_witness :
    ((RiskManager.reset_daily 1 {}).daily_trades = 0 ∧
      (RiskManager.reset_daily 1 {}).daily_pnl = 0 ∧
      (RiskManager.reset_daily 1 {}).current_date = 1) ∧
      RiskManager.reset_daily 1 (RiskManager.reset_daily 1 {}) =
        RiskManager.reset_daily 1 {} ∧
      RiskManager.can_trade {} 1 0 100 0 {} =
        RiskManager.can_trade {} 1 0 100 0 (RiskManager.reset_daily 1 {}) :=
  reset_daily_once_per_day {} 1 0 100 0 {} (by decide)

end SlowTrader
